import Mathlib

/-!
Verification of the JobSet admission model (Defaulter / Validator) and the
generated deep-copy accessors of the `v1alpha1` API package.

The first part embeds the persisted resource schema (spec §6) and the
admission components (spec §4.1, §4.2); the admission webhook source itself
is not part of the excerpt (only its integration tests are), so the
Defaulter and Validator are modelled from the specification's words.

The second part (`namespace Gen`) embeds `api/v1alpha1/zz_generated.deepcopy.go`
directly, with Go nil pointers / nil slices rendered as `Option`.
-/

namespace Model

/-- Child-job completion mode (`batchv1.CompletionMode`). -/
inductive CompletionMode
  | nonIndexed
  | indexed
deriving DecidableEq

/-- Pod restart policy (`corev1.RestartPolicy`); the unset Go value `""` is
rendered as `none` at the use site. -/
inductive RestartPolicy
  | always
  | onFailure
  | never
deriving DecidableEq

/-- The slice of a pod spec the admission logic inspects: restart policy,
node selector, hostname and subdomain.  Other pod fields behave exactly like
`hostname` with respect to admission (opaque, structurally compared). -/
structure PodSpec where
  restartPolicy : Option RestartPolicy
  nodeSelector : List (String × String)
  hostname : String
  subdomain : String
deriving DecidableEq

/-- The child-job spec carried by a member template: completion mode plus the
pod template (`Template.Spec.CompletionMode`, `Template.Spec.Template.Spec`
flattened). -/
structure JobSpec where
  completionMode : Option CompletionMode
  podTemplate : PodSpec
deriving DecidableEq

/-- Network declaration of a member (`Network` with its `*bool` field). -/
structure Network where
  enableDNSHostnames : Option Bool
deriving DecidableEq

/-- A Member Template (`ReplicatedJob`): name, replica count, child-job
template and optional network declaration. -/
structure ReplicatedJob where
  name : String
  replicas : Nat
  template : JobSpec
  network : Option Network
deriving DecidableEq

/-- SuccessPolicy operator: `All` or `Any`. -/
inductive Operator
  | all
  | anyOp
deriving DecidableEq

/-- SuccessPolicy: an operator and a target set of member names
(empty = all members). -/
structure SuccessPolicy where
  operator : Operator
  targetReplicatedJobs : List String
deriving DecidableEq

/-- FailurePolicy: the whole-group restart budget. -/
structure FailurePolicy where
  maxRestarts : Nat
deriving DecidableEq

/-- Group spec, the persisted schema of spec §6:
`{members: [MemberTemplate], failurePolicy?, successPolicy?, suspend: bool}`
(`suspend` is a `*bool` in the source API, nil meaning false). -/
structure JobSetSpec where
  replicatedJobs : List ReplicatedJob
  failurePolicy : Option FailurePolicy
  successPolicy : Option SuccessPolicy
  suspend : Option Bool
deriving DecidableEq

/-- Outcome of an admission check: accept, or reject with a reason. -/
inductive ValidationResult
  | allowed
  | denied (reason : String)
deriving DecidableEq

/-- Modelled from the spec: the Admission Defaulter's per-member defaults
(§4.1) — job completion mode → indexed if unset; pod restart policy →
on-failure if unset; `Network.EnableDNSHostnames` → true if the Network
block itself was unset or its flag left nil.  The webhook source file is
not part of the excerpt. -/
def defaultReplicatedJob (r : ReplicatedJob) : ReplicatedJob :=
  { r with
    template :=
      { r.template with
        completionMode := some (r.template.completionMode.getD CompletionMode.indexed)
        podTemplate :=
          { r.template.podTemplate with
            restartPolicy := some (r.template.podTemplate.restartPolicy.getD RestartPolicy.onFailure) } }
    network :=
      match r.network with
      | none => some { enableDNSHostnames := some true }
      | some n => some { n with enableDNSHostnames := some (n.enableDNSHostnames.getD true) } }

/-- Modelled from the spec: the Admission Defaulter on a whole group (§4.1) —
member-wise defaults plus `SuccessPolicy → {Operator: All, targets: []}`
(empty = all members) if unset.  The webhook source file is not part of the
excerpt. -/
def defaultJobSetSpec (s : JobSetSpec) : JobSetSpec :=
  { s with
    replicatedJobs := s.replicatedJobs.map defaultReplicatedJob
    successPolicy :=
      some (s.successPolicy.getD { operator := Operator.all, targetReplicatedJobs := [] }) }

/-- A SuccessPolicy target is valid when some member bears that name. -/
def targetValid (s : JobSetSpec) (t : String) : Bool :=
  s.replicatedJobs.any (fun r => r.name == t)

/-- Modelled from the spec: the structural create-time constraints of §4.2
(non-empty member list, positive replica counts).  The webhook source file
is not part of the excerpt. -/
def structuralCheck (s : JobSetSpec) : ValidationResult :=
  if s.replicatedJobs.isEmpty then ValidationResult.denied "EmptyReplicatedJobsList"
  else if s.replicatedJobs.all (fun r => decide (0 < r.replicas)) then ValidationResult.allowed
  else ValidationResult.denied "NonPositiveReplicas"

/-- Modelled from the spec: the Admission Validator at create time (§4.2) —
every SuccessPolicy target must name an existing member (reject with
`InvalidSuccessPolicyTarget` otherwise), then structural constraints.
The webhook source file is not part of the excerpt. -/
def validateCreate (s : JobSetSpec) : ValidationResult :=
  match s.successPolicy with
  | some sp =>
      if sp.targetReplicatedJobs.all (targetValid s) then structuralCheck s
      else ValidationResult.denied "InvalidSuccessPolicyTarget"
  | none => structuralCheck s

/-- Erase a member's node selector (the one placement field of the
suspended-mode allow-list). -/
def clearNodeSel (r : ReplicatedJob) : ReplicatedJob :=
  { r with template :=
      { r.template with podTemplate :=
          { r.template.podTemplate with nodeSelector := [] } } }

/-- Erase every member's node selector in a spec. -/
def eraseNodeSelectors (s : JobSetSpec) : JobSetSpec :=
  { s with replicatedJobs := s.replicatedJobs.map clearNodeSel }

/-- The part of a spec that must not change on update: the suspend flag is
always mutable, and when the persisted group is suspended the members'
node selectors are additionally mutable. -/
def frozenFields (suspended : Bool) (s : JobSetSpec) : JobSetSpec :=
  if suspended then eraseNodeSelectors { s with suspend := none }
  else { s with suspend := none }

/-- Modelled from the spec: the Admission Validator at update time (§4.2) —
when the persisted group's Suspend flag is true, node selectors and the
Suspend flag itself may change; when false only the Suspend flag may; any
other difference from the persisted object is rejected with
`ImmutableFieldChanged`.  The webhook source file is not part of the
excerpt. -/
def validateUpdate (oldSpec newSpec : JobSetSpec) : ValidationResult :=
  if frozenFields (oldSpec.suspend.getD false) oldSpec
      = frozenFields (oldSpec.suspend.getD false) newSpec
  then ValidationResult.allowed
  else ValidationResult.denied "ImmutableFieldChanged"

/-- Replace the node selector of a member template. -/
def setSel (sel : List (String × String)) (r : ReplicatedJob) : ReplicatedJob :=
  { r with template :=
      { r.template with podTemplate :=
          { r.template.podTemplate with nodeSelector := sel } } }

/-- Replace the node selector of the member at position `i`. -/
def setNodeSelectorAt (sel : List (String × String)) :
    List ReplicatedJob → Nat → List ReplicatedJob
  | [], _ => []
  | r :: rs, 0 => setSel sel r :: rs
  | r :: rs, i + 1 => r :: setNodeSelectorAt sel rs i

/-- The update that changes only the node selector of member `i`. -/
def updateNodeSelector (s : JobSetSpec) (i : Nat) (sel : List (String × String)) :
    JobSetSpec :=
  { s with replicatedJobs := setNodeSelectorAt sel s.replicatedJobs i }

/-- The update that changes only the Suspend flag. -/
def setSuspend (s : JobSetSpec) (b : Bool) : JobSetSpec :=
  { s with suspend := some b }

/-- Replace hostname and subdomain of a member template. -/
def setHost (h sub : String) (r : ReplicatedJob) : ReplicatedJob :=
  { r with template :=
      { r.template with podTemplate :=
          { r.template.podTemplate with hostname := h, subdomain := sub } } }

/-- Replace hostname and subdomain of the member at position `i`. -/
def setHostAt (h sub : String) : List ReplicatedJob → Nat → List ReplicatedJob
  | [], _ => []
  | r :: rs, 0 => setHost h sub r :: rs
  | r :: rs, i + 1 => r :: setHostAt h sub rs i

/-- The update that changes only hostname and subdomain of member `i`. -/
def updateHostname (s : JobSetSpec) (i : Nat) (h sub : String) : JobSetSpec :=
  { s with replicatedJobs := setHostAt h sub s.replicatedJobs i }

end Model

namespace Gen

/-!  Embedding of `api/v1alpha1/zz_generated.deepcopy.go`.  Go nil pointers
and nil slices are `none`; `DeepCopyInto` on a non-nil receiver becomes a
pure function on values; the external `metav1` / `batchv1` deep copies are
value copies (identity on values). -/

/-- `FailurePolicy` of the generated file: copied wholesale by `*out = *in`,
so it carries only plain value fields. -/
structure FailurePolicy where
  maxRestarts : Int
deriving DecidableEq

/-- External `metav1.TypeMeta`: plain value fields. -/
structure TypeMeta where
  kind : String
  apiVersion : String
deriving DecidableEq

/-- External `metav1.ObjectMeta` as a value; its own `DeepCopyInto` is an
external correct deep copy, i.e. the identity on values. -/
structure ObjectMeta where
  name : String
  nsName : String
  labels : List (String × String)
deriving DecidableEq

/-- External `metav1.ObjectMeta.DeepCopyInto`. -/
def ObjectMeta.deepCopyInto (x : ObjectMeta) : ObjectMeta := x

/-- External `metav1.ListMeta` as a value. -/
structure ListMeta where
  resourceVersion : String
deriving DecidableEq

/-- External `metav1.ListMeta.DeepCopyInto`. -/
def ListMeta.deepCopyInto (x : ListMeta) : ListMeta := x

/-- External `metav1.Condition` as a value. -/
structure Condition where
  condType : String
  status : String
  reason : String
  lastTransitionTime : Int
deriving DecidableEq

/-- External `metav1.Condition.DeepCopyInto`. -/
def Condition.deepCopyInto (x : Condition) : Condition := x

/-- External `batchv1.JobTemplateSpec` as a value; its `DeepCopyInto` is an
external correct deep copy. -/
structure JobTemplateSpec where
  metadata : ObjectMeta
  jobSpec : String
deriving DecidableEq

/-- External `batchv1.JobTemplateSpec.DeepCopyInto`. -/
def JobTemplateSpec.deepCopyInto (x : JobTemplateSpec) : JobTemplateSpec := x

/-- `Network` of the generated file: one `*bool` field. -/
structure Network where
  enableDNSHostnames : Option Bool
deriving DecidableEq

/-- `Network.DeepCopyInto`: `*out = *in`, then a fresh bool when the pointer
is non-nil. -/
def Network.deepCopyInto (x : Network) : Network :=
  match x.enableDNSHostnames with
  | none => { enableDNSHostnames := x.enableDNSHostnames }
  | some b => { enableDNSHostnames := some b }

/-- `Network.DeepCopy`: nil receiver gives nil. -/
def Network.deepCopy : Option Network → Option Network
  | none => none
  | some x => some x.deepCopyInto

/-- `ReplicatedJob` of the generated file: value fields, an embedded
template, and a `*Network`. -/
structure ReplicatedJob where
  name : String
  replicas : Int
  template : JobTemplateSpec
  network : Option Network
deriving DecidableEq

/-- `ReplicatedJob.DeepCopyInto`: `*out = *in`, `Template.DeepCopyInto`,
then a fresh `Network` when the pointer is non-nil. -/
def ReplicatedJob.deepCopyInto (x : ReplicatedJob) : ReplicatedJob :=
  { x with
    template := x.template.deepCopyInto
    network :=
      match x.network with
      | none => x.network
      | some n => some n.deepCopyInto }

/-- `ReplicatedJob.DeepCopy`: nil receiver gives nil. -/
def ReplicatedJob.deepCopy : Option ReplicatedJob → Option ReplicatedJob
  | none => none
  | some x => some x.deepCopyInto

/-- `FailurePolicy.DeepCopyInto`: `*out = *in`. -/
def FailurePolicy.deepCopyInto (x : FailurePolicy) : FailurePolicy := x

/-- `FailurePolicy.DeepCopy`: nil receiver gives nil. -/
def FailurePolicy.deepCopy : Option FailurePolicy → Option FailurePolicy
  | none => none
  | some x => some x.deepCopyInto

/-- `JobSetSpec` of the generated file: a `Jobs` slice and a
`*FailurePolicy`. -/
structure JobSetSpec where
  jobs : Option (List ReplicatedJob)
  failurePolicy : Option FailurePolicy
deriving DecidableEq

/-- `JobSetSpec.DeepCopyInto`: `*out = *in`, then a fresh slice with
element-wise `DeepCopyInto` when `Jobs` is non-nil, and a fresh
`FailurePolicy` via `**out = **in` when the pointer is non-nil. -/
def JobSetSpec.deepCopyInto (x : JobSetSpec) : JobSetSpec :=
  { jobs :=
      match x.jobs with
      | none => x.jobs
      | some l => some (l.map ReplicatedJob.deepCopyInto)
    failurePolicy :=
      match x.failurePolicy with
      | none => x.failurePolicy
      | some fp => some fp }

/-- `JobSetSpec.DeepCopy`: nil receiver gives nil. -/
def JobSetSpec.deepCopy : Option JobSetSpec → Option JobSetSpec
  | none => none
  | some x => some x.deepCopyInto

/-- `JobSetStatus` of the generated file: value fields and a `Conditions`
slice. -/
structure JobSetStatus where
  restarts : Int
  conditions : Option (List Condition)
deriving DecidableEq

/-- `JobSetStatus.DeepCopyInto`: `*out = *in`, then a fresh slice with
element-wise `DeepCopyInto` when `Conditions` is non-nil. -/
def JobSetStatus.deepCopyInto (x : JobSetStatus) : JobSetStatus :=
  { x with
    conditions :=
      match x.conditions with
      | none => x.conditions
      | some l => some (l.map Condition.deepCopyInto) }

/-- `JobSetStatus.DeepCopy`: nil receiver gives nil. -/
def JobSetStatus.deepCopy : Option JobSetStatus → Option JobSetStatus
  | none => none
  | some x => some x.deepCopyInto

/-- `JobSet` of the generated file: type meta, object meta, spec, status. -/
structure JobSet where
  typeMeta : TypeMeta
  metadata : ObjectMeta
  spec : JobSetSpec
  status : JobSetStatus
deriving DecidableEq

/-- `JobSet.DeepCopyInto`: `*out = *in`, `out.TypeMeta = in.TypeMeta`, then
`DeepCopyInto` of object meta, spec and status. -/
def JobSet.deepCopyInto (x : JobSet) : JobSet :=
  { typeMeta := x.typeMeta
    metadata := x.metadata.deepCopyInto
    spec := x.spec.deepCopyInto
    status := x.status.deepCopyInto }

/-- `JobSet.DeepCopy`: nil receiver gives nil. -/
def JobSet.deepCopy : Option JobSet → Option JobSet
  | none => none
  | some x => some x.deepCopyInto

/-- `JobSetList` of the generated file: type meta, list meta, and an `Items`
slice. -/
structure JobSetList where
  typeMeta : TypeMeta
  listMeta : ListMeta
  items : Option (List JobSet)
deriving DecidableEq

/-- `JobSetList.DeepCopyInto`: `*out = *in`, `out.TypeMeta = in.TypeMeta`,
`ListMeta.DeepCopyInto`, then a fresh slice with element-wise
`DeepCopyInto` when `Items` is non-nil. -/
def JobSetList.deepCopyInto (x : JobSetList) : JobSetList :=
  { typeMeta := x.typeMeta
    listMeta := x.listMeta.deepCopyInto
    items :=
      match x.items with
      | none => x.items
      | some l => some (l.map JobSet.deepCopyInto) }

/-- `JobSetList.DeepCopy`: nil receiver gives nil. -/
def JobSetList.deepCopy : Option JobSetList → Option JobSetList
  | none => none
  | some x => some x.deepCopyInto

end Gen

namespace Model

/-- A fully-defaulted pod spec, as the integration tests build it. -/
def samplePodSpec : PodSpec :=
  { restartPolicy := some RestartPolicy.onFailure
    nodeSelector := []
    hostname := ""
    subdomain := "" }

/-- A fully-defaulted member template named `rjob`. -/
def sampleRJ : ReplicatedJob :=
  { name := "rjob"
    replicas := 1
    template := { completionMode := some CompletionMode.indexed, podTemplate := samplePodSpec }
    network := some { enableDNSHostnames := some true } }

/-- A fully-defaulted group spec with one member, as persisted by the
webhook in the integration tests. -/
def sampleSpec : JobSetSpec :=
  { replicatedJobs := [sampleRJ]
    failurePolicy := none
    successPolicy := some { operator := Operator.all, targetReplicatedJobs := [] }
    suspend := none }

/-- A member template with every defaultable field unset. -/
def rawRJ : ReplicatedJob :=
  { name := "rjob"
    replicas := 1
    template :=
      { completionMode := none
        podTemplate := { restartPolicy := none, nodeSelector := [], hostname := "", subdomain := "" } }
    network := none }

/-- A group spec with every defaultable field unset. -/
def rawSpec : JobSetSpec :=
  { replicatedJobs := [rawRJ]
    failurePolicy := none
    successPolicy := none
    suspend := none }

/-- A group spec whose SuccessPolicy targets a name that is not a member. -/
def badTargetSpec : JobSetSpec :=
  { sampleSpec with
    successPolicy :=
      some { operator := Operator.all, targetReplicatedJobs := ["does-not-exist"] } }

end Model

namespace Model

theorem defaultReplicatedJob_idem (r : ReplicatedJob) :
    defaultReplicatedJob (defaultReplicatedJob r) = defaultReplicatedJob r := by
  rcases r with ⟨name, replicas, ⟨cm, pod⟩, net⟩
  cases net <;> simp [defaultReplicatedJob]

theorem get?_setNodeSelectorAt (sel : List (String × String)) :
    ∀ (l : List ReplicatedJob) (i : Nat),
      (setNodeSelectorAt sel l i).get? i = (l.get? i).map (setSel sel)
  | [], _ => by simp [setNodeSelectorAt]
  | r :: rs, 0 => by simp [setNodeSelectorAt]
  | r :: rs, i + 1 => by
      simpa [setNodeSelectorAt] using get?_setNodeSelectorAt sel rs i

theorem clearNodeSel_setSel (sel : List (String × String)) (r : ReplicatedJob) :
    clearNodeSel (setSel sel r) = clearNodeSel r := rfl

theorem map_clear_setNodeSelectorAt (sel : List (String × String)) :
    ∀ (l : List ReplicatedJob) (i : Nat),
      (setNodeSelectorAt sel l i).map clearNodeSel = l.map clearNodeSel
  | [], _ => by simp [setNodeSelectorAt]
  | r :: rs, 0 => by simp [setNodeSelectorAt, clearNodeSel_setSel]
  | r :: rs, i + 1 => by
      simp [setNodeSelectorAt, map_clear_setNodeSelectorAt sel rs i]

theorem structuralCheck_ne_invalidTarget (s : JobSetSpec) :
    structuralCheck s ≠ ValidationResult.denied "InvalidSuccessPolicyTarget" := by
  unfold structuralCheck
  split
  · simp
  · split
    · simp
    · simp

/-- C4: the Admission Defaulter is idempotent — applying it twice yields the
same result as applying it once — and a completion mode that is already set
is left unchanged. -/
theorem defaulter_idempotent (s : JobSetSpec) :
    defaultJobSetSpec (defaultJobSetSpec s) = defaultJobSetSpec s ∧
      ∀ (i : Nat) (r : ReplicatedJob) (cm : CompletionMode),
        s.replicatedJobs.get? i = some r →
        r.template.completionMode = some cm →
        ∃ r', (defaultJobSetSpec s).replicatedJobs.get? i = some r' ∧
          r'.template.completionMode = some cm := by
  constructor
  · simp [defaultJobSetSpec, List.map_map, Function.comp_def, defaultReplicatedJob_idem]
  · intro i r cm hr hcm
    have hr' : s.replicatedJobs[i]? = some r := by simpa using hr
    refine ⟨defaultReplicatedJob r, ?_, ?_⟩
    · simp [defaultJobSetSpec, hr']
    · simp [defaultReplicatedJob, hcm]

/-- C4 witness: idempotence and preservation of an already-set completion
mode, at the fully-defaulted one-member spec. -/
theorem defaulter_idempotent_witness :
    defaultJobSetSpec (defaultJobSetSpec sampleSpec) = defaultJobSetSpec sampleSpec ∧
      ∃ r', (defaultJobSetSpec sampleSpec).replicatedJobs.get? 0 = some r' ∧
        r'.template.completionMode = some CompletionMode.indexed :=
  ⟨(defaulter_idempotent sampleSpec).1,
    (defaulter_idempotent sampleSpec).2 0 sampleRJ CompletionMode.indexed rfl rfl⟩

/-- C5: a member whose completion mode is unset gets completion mode
indexed from the Admission Defaulter. -/
theorem completionMode_defaulted_indexed
    (s : JobSetSpec) (i : Nat) (r : ReplicatedJob)
    (hr : s.replicatedJobs.get? i = some r)
    (hcm : r.template.completionMode = none) :
    ∃ r', (defaultJobSetSpec s).replicatedJobs.get? i = some r' ∧
      r'.template.completionMode = some CompletionMode.indexed :=
  ⟨defaultReplicatedJob r,
    by
      have hr' : s.replicatedJobs[i]? = some r := by simpa using hr
      simp [defaultJobSetSpec, hr'],
    by simp [defaultReplicatedJob, hcm]⟩

/-- C5 witness: the undefaulted one-member spec gets completion mode
indexed at member 0. -/
theorem completionMode_defaulted_indexed_witness :
    ∃ r', (defaultJobSetSpec rawSpec).replicatedJobs.get? 0 = some r' ∧
      r'.template.completionMode = some CompletionMode.indexed :=
  completionMode_defaulted_indexed rawSpec 0 rawRJ rfl rfl

/-- C6: a group without an explicit SuccessPolicy gets
`{Operator: All, targets: []}` (empty = all members) from the Admission
Defaulter. -/
theorem successPolicy_defaulted_all (s : JobSetSpec)
    (h : s.successPolicy = none) :
    (defaultJobSetSpec s).successPolicy
      = some { operator := Operator.all, targetReplicatedJobs := [] } := by
  simp [defaultJobSetSpec, h]

/-- C6 witness: the undefaulted one-member spec gets the all-members
SuccessPolicy. -/
theorem successPolicy_defaulted_all_witness :
    (defaultJobSetSpec rawSpec).successPolicy
      = some { operator := Operator.all, targetReplicatedJobs := [] } :=
  successPolicy_defaulted_all rawSpec rfl

/-- C7: a member whose Network declaration is unset gets a Network block
with `EnableDNSHostnames = true` from the Admission Defaulter. -/
theorem network_defaulted_dns
    (s : JobSetSpec) (i : Nat) (r : ReplicatedJob)
    (hr : s.replicatedJobs.get? i = some r)
    (hn : r.network = none) :
    ∃ r', (defaultJobSetSpec s).replicatedJobs.get? i = some r' ∧
      r'.network = some { enableDNSHostnames := some true } :=
  ⟨defaultReplicatedJob r,
    by
      have hr' : s.replicatedJobs[i]? = some r := by simpa using hr
      simp [defaultJobSetSpec, hr'],
    by simp [defaultReplicatedJob, hn]⟩

/-- C7 witness: the undefaulted one-member spec gets
`EnableDNSHostnames = true` at member 0. -/
theorem network_defaulted_dns_witness :
    ∃ r', (defaultJobSetSpec rawSpec).replicatedJobs.get? 0 = some r' ∧
      r'.network = some { enableDNSHostnames := some true } :=
  network_defaulted_dns rawSpec 0 rawRJ rfl rfl

/-- C8: a member whose pod restart policy is unset gets restart policy
on-failure from the Admission Defaulter. -/
theorem restartPolicy_defaulted_onFailure
    (s : JobSetSpec) (i : Nat) (r : ReplicatedJob)
    (hr : s.replicatedJobs.get? i = some r)
    (hp : r.template.podTemplate.restartPolicy = none) :
    ∃ r', (defaultJobSetSpec s).replicatedJobs.get? i = some r' ∧
      r'.template.podTemplate.restartPolicy = some RestartPolicy.onFailure :=
  ⟨defaultReplicatedJob r,
    by
      have hr' : s.replicatedJobs[i]? = some r := by simpa using hr
      simp [defaultJobSetSpec, hr'],
    by simp [defaultReplicatedJob, hp]⟩

/-- C8 witness: the undefaulted one-member spec gets restart policy
on-failure at member 0. -/
theorem restartPolicy_defaulted_onFailure_witness :
    ∃ r', (defaultJobSetSpec rawSpec).replicatedJobs.get? 0 = some r' ∧
      r'.template.podTemplate.restartPolicy = some RestartPolicy.onFailure :=
  restartPolicy_defaulted_onFailure rawSpec 0 rawRJ rfl rfl

/-- C9: an update that changes only the Suspend flag — to either value,
so in particular suspending a running group and resuming a suspended one —
is accepted by the Admission Validator. -/
theorem suspend_update_allowed (s : JobSetSpec) (b : Bool) :
    validateUpdate s (setSuspend s b) = ValidationResult.allowed := by
  have h : frozenFields (s.suspend.getD false) (setSuspend s b)
      = frozenFields (s.suspend.getD false) s := by
    simp [frozenFields, setSuspend]
  simp [validateUpdate, h]

end Model

namespace Model

/-- C1: on a persisted group that is not suspended, an update changing a
member's node selector is rejected with `ImmutableFieldChanged`; on the
same group persisted with Suspend true, the identical node-selector update
is accepted. -/
theorem nodeSelector_immutable_unless_suspended
    (s : JobSetSpec) (i : Nat) (sel : List (String × String)) (r : ReplicatedJob)
    (hr : s.replicatedJobs.get? i = some r)
    (hne : sel ≠ r.template.podTemplate.nodeSelector)
    (hsus : s.suspend.getD false = false) :
    validateUpdate s (updateNodeSelector s i sel)
        = ValidationResult.denied "ImmutableFieldChanged" ∧
      validateUpdate (setSuspend s true) (updateNodeSelector (setSuspend s true) i sel)
        = ValidationResult.allowed := by
  constructor
  · have hcond : frozenFields (s.suspend.getD false) s
        ≠ frozenFields (s.suspend.getD false) (updateNodeSelector s i sel) := by
      rw [hsus]
      simp only [frozenFields, if_neg (by simp : ¬ (false = true))]
      intro heq
      have hlists : s.replicatedJobs = setNodeSelectorAt sel s.replicatedJobs i := by
        simpa [updateNodeSelector] using congrArg JobSetSpec.replicatedJobs heq
      have hget : s.replicatedJobs.get? i = (setNodeSelectorAt sel s.replicatedJobs i).get? i := by
        rw [← hlists]
      rw [get?_setNodeSelectorAt, hr] at hget
      have hr2 : r = setSel sel r := by simpa using hget
      apply hne
      conv_rhs => rw [hr2]
      rfl
    simp only [validateUpdate]
    rw [if_neg hcond]
  · have hcond : frozenFields ((setSuspend s true).suspend.getD false) (setSuspend s true)
        = frozenFields ((setSuspend s true).suspend.getD false)
            (updateNodeSelector (setSuspend s true) i sel) := by
      simp [setSuspend, frozenFields, eraseNodeSelectors, updateNodeSelector,
        map_clear_setNodeSelectorAt]
    simp only [validateUpdate]
    rw [if_pos hcond]

/-- C1 witness: on the one-member sample group the node-selector update is
rejected when not suspended and accepted when suspended. -/
theorem nodeSelector_immutable_unless_suspended_witness :
    validateUpdate sampleSpec (updateNodeSelector sampleSpec 0 [("test", "test")])
        = ValidationResult.denied "ImmutableFieldChanged" ∧
      validateUpdate (setSuspend sampleSpec true)
          (updateNodeSelector (setSuspend sampleSpec true) 0 [("test", "test")])
        = ValidationResult.allowed :=
  nodeSelector_immutable_unless_suspended sampleSpec 0 [("test", "test")] sampleRJ rfl
    (by decide) rfl

/-- C2: an update that differs from the persisted object outside the
allow-list — anywhere other than the Suspend flag and the members' node
selectors, e.g. in a pod hostname or subdomain — is rejected with
`ImmutableFieldChanged`, whatever the value of the Suspend flag. -/
theorem non_allowlisted_change_rejected
    (oldSpec newSpec : JobSetSpec)
    (hdiff : eraseNodeSelectors { oldSpec with suspend := none }
        ≠ eraseNodeSelectors { newSpec with suspend := none }) :
    validateUpdate oldSpec newSpec = ValidationResult.denied "ImmutableFieldChanged" := by
  have hcond : frozenFields (oldSpec.suspend.getD false) oldSpec
      ≠ frozenFields (oldSpec.suspend.getD false) newSpec := by
    cases hb : oldSpec.suspend.getD false with
    | true => simpa [frozenFields] using hdiff
    | false =>
        simp only [frozenFields, if_neg (by simp : ¬ (false = true))]
        intro heq
        exact hdiff (congrArg eraseNodeSelectors heq)
  simp only [validateUpdate]
  rw [if_neg hcond]

/-- C2 witness: changing hostname and subdomain of the sample group's member
is rejected. -/
theorem non_allowlisted_change_rejected_witness :
    validateUpdate sampleSpec (updateHostname sampleSpec 0 "test" "test")
      = ValidationResult.denied "ImmutableFieldChanged" :=
  non_allowlisted_change_rejected sampleSpec (updateHostname sampleSpec 0 "test" "test")
    (by decide)

/-- C3: a create whose SuccessPolicy names a target that is no member's
name is rejected with `InvalidSuccessPolicyTarget`; a create whose every
target names an existing member is never rejected with that reason. -/
theorem create_rejects_bad_success_target (s : JobSetSpec) :
    ((∃ sp, s.successPolicy = some sp ∧ ∃ t ∈ sp.targetReplicatedJobs,
        ∀ r ∈ s.replicatedJobs, r.name ≠ t) →
      validateCreate s = ValidationResult.denied "InvalidSuccessPolicyTarget") ∧
    ((∀ sp, s.successPolicy = some sp → ∀ t ∈ sp.targetReplicatedJobs,
        ∃ r ∈ s.replicatedJobs, r.name = t) →
      validateCreate s ≠ ValidationResult.denied "InvalidSuccessPolicyTarget") := by
  constructor
  · rintro ⟨sp, hsp, t, ht, hbad⟩
    have hnotall : ¬ sp.targetReplicatedJobs.all (targetValid s) = true := by
      rw [List.all_eq_true]
      intro hforall
      have := hforall t ht
      simp only [targetValid, List.any_eq_true, beq_iff_eq] at this
      obtain ⟨r, hrmem, hrname⟩ := this
      exact hbad r hrmem hrname
    have hall : sp.targetReplicatedJobs.all (targetValid s) = false :=
      Bool.not_eq_true _ ▸ eq_false_of_ne_true hnotall
    simp [validateCreate, hsp, hall]
  · intro hgood
    cases hsp : s.successPolicy with
    | none =>
        simp only [validateCreate, hsp]
        exact structuralCheck_ne_invalidTarget s
    | some sp =>
        have hall : sp.targetReplicatedJobs.all (targetValid s) = true := by
          rw [List.all_eq_true]
          intro t ht
          obtain ⟨r, hrmem, hrname⟩ := hgood sp hsp t ht
          simp only [targetValid, List.any_eq_true, beq_iff_eq]
          exact ⟨r, hrmem, hrname⟩
        simp only [validateCreate, hsp, hall, if_pos]
        exact structuralCheck_ne_invalidTarget s

/-- C3 witness: the spec targeting `does-not-exist` is rejected with
`InvalidSuccessPolicyTarget`; the sample spec (empty target list) is not. -/
theorem create_rejects_bad_success_target_witness :
    validateCreate badTargetSpec = ValidationResult.denied "InvalidSuccessPolicyTarget" ∧
      validateCreate sampleSpec ≠ ValidationResult.denied "InvalidSuccessPolicyTarget" :=
  ⟨(create_rejects_bad_success_target badTargetSpec).1
      ⟨{ operator := Operator.all, targetReplicatedJobs := ["does-not-exist"] }, rfl,
        "does-not-exist", by decide, by decide⟩,
    (create_rejects_bad_success_target sampleSpec).2
      (fun sp hsp t ht => by
        have h2 : ({ operator := Operator.all, targetReplicatedJobs := [] } : SuccessPolicy)
            = sp := Option.some.inj hsp
        rw [← h2] at ht
        simp at ht)⟩

end Model

namespace Gen

theorem network_deepCopyInto_self (x : Network) : x.deepCopyInto = x := by
  rcases x with ⟨e⟩
  cases e <;> rfl

theorem replicatedJob_deepCopyInto_self (x : ReplicatedJob) : x.deepCopyInto = x := by
  rcases x with ⟨n, rep, t, net⟩
  cases net <;>
    simp [ReplicatedJob.deepCopyInto, JobTemplateSpec.deepCopyInto, network_deepCopyInto_self]

theorem map_deepCopyInto_replicatedJob (l : List ReplicatedJob) :
    l.map ReplicatedJob.deepCopyInto = l := by
  induction l with
  | nil => rfl
  | cons a t ih => simp [replicatedJob_deepCopyInto_self, ih]

theorem map_deepCopyInto_condition (l : List Condition) :
    l.map Condition.deepCopyInto = l := by
  induction l with
  | nil => rfl
  | cons a t ih => simp [Condition.deepCopyInto, ih]

theorem jobSetSpec_deepCopyInto_self (x : JobSetSpec) : x.deepCopyInto = x := by
  rcases x with ⟨jobs, fp⟩
  cases jobs <;> cases fp <;>
    simp [JobSetSpec.deepCopyInto, map_deepCopyInto_replicatedJob]

theorem jobSetStatus_deepCopyInto_self (x : JobSetStatus) : x.deepCopyInto = x := by
  rcases x with ⟨restarts, conds⟩
  cases conds <;> simp [JobSetStatus.deepCopyInto, map_deepCopyInto_condition]

theorem jobSet_deepCopyInto_self (x : JobSet) : x.deepCopyInto = x := by
  rcases x with ⟨tm, om, sp, st⟩
  simp [JobSet.deepCopyInto, ObjectMeta.deepCopyInto,
    jobSetSpec_deepCopyInto_self, jobSetStatus_deepCopyInto_self]

theorem map_deepCopyInto_jobSet (l : List JobSet) :
    l.map JobSet.deepCopyInto = l := by
  induction l with
  | nil => rfl
  | cons a t ih => simp [jobSet_deepCopyInto_self, ih]

theorem jobSetList_deepCopyInto_self (x : JobSetList) : x.deepCopyInto = x := by
  rcases x with ⟨tm, lm, items⟩
  cases items <;>
    simp [JobSetList.deepCopyInto, ListMeta.deepCopyInto, map_deepCopyInto_jobSet]

/-- C10: for each generated type, `DeepCopy` on a nil receiver returns nil
and on a non-nil receiver returns a structurally equal value (in this pure
value model the receiver is untouched by construction). -/
theorem deepCopy_faithful :
    (∀ x : Option FailurePolicy, FailurePolicy.deepCopy x = x) ∧
    (∀ x : Option JobSet, JobSet.deepCopy x = x) ∧
    (∀ x : Option JobSetList, JobSetList.deepCopy x = x) ∧
    (∀ x : Option JobSetSpec, JobSetSpec.deepCopy x = x) ∧
    (∀ x : Option JobSetStatus, JobSetStatus.deepCopy x = x) ∧
    (∀ x : Option Network, Network.deepCopy x = x) ∧
    (∀ x : Option ReplicatedJob, ReplicatedJob.deepCopy x = x) := by
  refine ⟨fun x => ?_, fun x => ?_, fun x => ?_, fun x => ?_, fun x => ?_,
    fun x => ?_, fun x => ?_⟩
  · cases x <;> simp [FailurePolicy.deepCopy, FailurePolicy.deepCopyInto]
  · cases x <;> simp [JobSet.deepCopy, jobSet_deepCopyInto_self]
  · cases x <;> simp [JobSetList.deepCopy, jobSetList_deepCopyInto_self]
  · cases x <;> simp [JobSetSpec.deepCopy, jobSetSpec_deepCopyInto_self]
  · cases x <;> simp [JobSetStatus.deepCopy, jobSetStatus_deepCopyInto_self]
  · cases x <;> simp [Network.deepCopy, network_deepCopyInto_self]
  · cases x <;> simp [ReplicatedJob.deepCopy, replicatedJob_deepCopyInto_self]

end Gen
